import Mathlib

/-!
# Verification of the Brightspace role/permissions exporter core

Shallow embedding of `src/brightspace_role_exporter_v3.py`: the URL/cookie
normalizer, the credential verifier `check_whoami`, the UI-scrape role
discovery loop, the per-role export worker `export_one_role_v2`, the batch
orchestrator loop, and the ETA computation.  External effects (HTTP
responses, browser/download outcomes) are passed in as explicit function
arguments; byte strings are `List Nat`.
-/

namespace RoleExporter

/-- ASCII whitespace characters removed by Python `str.strip()`. -/
def isPySpace (c : Char) : Bool :=
  c = ' ' || c = '\t' || c = '\n' || c = '\x0d' || c = '\x0b' || c = '\x0c'

/-- Python `str.strip()` on a character list: drop whitespace at both ends. -/
def pyStrip (l : List Char) : List Char :=
  ((l.dropWhile isPySpace).reverse.dropWhile isPySpace).reverse

/-- `normalize_url`: `(url or '').strip().rstrip('/')` — trim whitespace,
then remove every trailing `'/'`. -/
def normalize_url (url : String) : String :=
  String.mk (((pyStrip url.data).reverse.dropWhile (fun c => c = '/')).reverse)

/-- The character whitelist of `sanitize_filename`'s regex `[A-Za-z0-9_. -]`. -/
def allowedFileChar (c : Char) : Bool :=
  ('A' ≤ c && c ≤ 'Z') || ('a' ≤ c && c ≤ 'z') || ('0' ≤ c && c ≤ '9') ||
    c = '_' || c = '.' || c = ' ' || c = '-'

/-- `re.sub(r'[^A-Za-z0-9_. -]+', '_', ...)` as a state machine: the flag
records whether we are inside a run of non-whitelisted characters whose
single replacement `'_'` has already been emitted. -/
def collapseBadAux : Bool → List Char → List Char
  | _, [] => []
  | inBad, c :: rest =>
    if allowedFileChar c then c :: collapseBadAux false rest
    else if inBad then collapseBadAux true rest
    else '_' :: collapseBadAux true rest

/-- `sanitize_filename(name, default)`: strip, replace each maximal run of
non-whitelisted characters by one `'_'`, fall back to `default` if empty. -/
def sanitize_filename (name default : String) : String :=
  let safe_name := String.mk (collapseBadAux false (pyStrip name.data))
  if safe_name = "" then default else safe_name

/-- Python `x or y` on strings: `y` when `x` is empty. -/
def pyOrString (x y : String) : String :=
  if x = "" then y else x

/-! ## Credential verifier (`check_whoami`)

The HTTP layer is abstracted as the outcome of the single GET request:
either a response (status code plus the parsed identity payload) or a
`requests.RequestException` carrying its display text. -/

/-- Outcome of the identity-check GET request. -/
inductive HttpOutcome where
  | response (statusCode : Nat) (firstName lastName : String)
  | requestError (exceptionText : String)
deriving DecidableEq

/-- Result dictionary of `check_whoami`. -/
structure WhoamiResult where
  status : String
  message : String
deriving DecidableEq

/-- `check_whoami`: 200 → success with the stripped full name; other status
→ fail with a status-bearing message; `RequestException e` → fail with
message `"Network error: " ++ e` (the f-string interpolates the exception). -/
def check_whoami (outcome : HttpOutcome) : WhoamiResult :=
  match outcome with
  | .response 200 firstName lastName =>
      { status := "success"
        message := "Authentication successful for: " ++
          String.mk (pyStrip (firstName ++ " " ++ lastName).data) }
  | .response code _ _ =>
      { status := "fail"
        message := "Authentication failed (Status " ++ toString code ++
          "). Expired cookie or wrong host." }
  | .requestError e =>
      { status := "fail", message := "Network error: " ++ e }

/-! ## URL safety check

Modelled from the spec: no `isSafeUrl` function appears in
`src/brightspace_role_exporter_v3.py` (the spec describes a second,
near-duplicate source file that is not in `src/`).  The definitions below
follow the spec words of §4.1: parse the URL; return false unless the
scheme is `http` or `https`, a hostname is present, and the hostname is
not `localhost`, `127.0.0.1`, `::1` or `0.0.0.0`; any parse failure is
unsafe. -/

/-- Modelled from the spec: split a URL at its first `"://"` into scheme
and remainder; `none` when the separator is absent (parse failure). -/
def splitSchemeRest : List Char → Option (List Char × List Char)
  | [] => none
  | ':' :: '/' :: '/' :: rest => some ([], rest)
  | c :: rest =>
    match splitSchemeRest rest with
    | none => none
    | some (s, r) => some (c :: s, r)

/-- Modelled from the spec: the scheme component of a URL, when parseable. -/
def urlScheme (url : String) : Option String :=
  match splitSchemeRest url.data with
  | none => none
  | some (s, _) => some (String.mk s)

/-- Modelled from the spec: the hostname component — the part after `://`
up to the first `/`, `:`, `?` or `#` (bracketed IPv6 hosts keep the text
inside the brackets); `none` when parsing fails or the hostname is empty. -/
def urlHostname (url : String) : Option String :=
  match splitSchemeRest url.data with
  | none => none
  | some (_, rest) =>
    let host :=
      match rest with
      | '[' :: r => r.takeWhile (fun c => c ≠ ']')
      | r => r.takeWhile (fun c => c ≠ '/' && c ≠ ':' && c ≠ '?' && c ≠ '#')
    if host = [] then none else some (String.mk host)

/-- Modelled from the spec: hostnames rejected as loopback/unspecified. -/
def blockedHosts : List String := ["localhost", "127.0.0.1", "::1", "0.0.0.0"]

/-- Modelled from the spec: `isSafeUrl` — true only for parseable
`http(s)` URLs with a present, non-blocked hostname. -/
def isSafeUrl (url : String) : Bool :=
  match urlScheme url, urlHostname url with
  | some scheme, some host =>
      (scheme = "http" || scheme = "https") && !(blockedHosts.contains host)
  | _, _ => false

/-! ## UI-scrape role discovery (`fetch_roles_via_ui_scrape`)

A fetched page is abstracted as the roles parsed from its `roleId=<n>`
anchors plus the resolved next-page URL (already joined against the
current URL); `none` from the fetch function models a request/parse
exception, which breaks the loop. -/

/-- One successfully fetched role-list page. -/
structure ScrapePage where
  roles : List (Nat × String)
  nextUrl : Option String

/-- The scrape loop: fuel counts remaining iterations of
`for i in range(50)`; returns the collected roles and the number of page
fetches performed. -/
def scrapeGo (fetch : String → Option ScrapePage) :
    Nat → Option String → List String → List (Nat × String) → Nat →
      List (Nat × String) × Nat
  | 0, _, _, roles, fetches => (roles, fetches)
  | fuel + 1, currentUrl, seenUrls, roles, fetches =>
    match currentUrl with
    | none => (roles, fetches)
    | some url =>
      if url = "" || seenUrls.contains url then (roles, fetches)
      else
        match fetch url with
        | none => (roles, fetches + 1)
        | some page =>
            scrapeGo fetch fuel page.nextUrl (url :: seenUrls)
              (roles ++ page.roles) (fetches + 1)

/-- `drop_duplicates(subset=['Identifier'])`: keep the first occurrence of
each identifier. -/
def dedupById : List (Nat × String) → List Nat → List (Nat × String)
  | [], _ => []
  | r :: rest, seen =>
    if seen.contains r.1 then dedupById rest seen
    else r :: dedupById rest (r.1 :: seen)

/-- `fetch_roles_via_ui_scrape`: start from the org-unit role-list URL,
walk up to 50 pages with the cycle guard, de-duplicate by identifier.
Returns the role rows and the number of page fetches. -/
def fetch_roles_via_ui_scrape (fetch : String → Option ScrapePage)
    (host_url : String) (organization_unit_id : Nat) :
    List (Nat × String) × Nat :=
  let start_url :=
    host_url ++ "/d2l/lp/security/role_list.d2l?ou=" ++ toString organization_unit_id
  let r := scrapeGo fetch 50 (some start_url) [] [] 0
  (dedupById r.1 [], r.2)

/-! ## Export worker (`export_one_role_v2`)

One attempt's browser interaction (navigation, export control, download
link, temp-file round trip) either yields the downloaded bytes or raises;
the attempt body is abstracted as a function from the attempt index to
that outcome.  The model also counts attempts made and seconds slept. -/

/-- Outcome of one attempt body of `export_one_role_v2`. -/
inductive AttemptOutcome where
  | download (bytes : List Nat)
  | failure (exceptionText : String)
deriving DecidableEq

/-- The `(success, filename_or_message, file_data)` triple. -/
structure ExportResult where
  success : Bool
  filenameOrMessage : String
  fileData : Option (List Nat)
deriving DecidableEq

/-- A worker run: its result plus attempt and sleep accounting. -/
structure WorkerRun where
  result : ExportResult
  attemptsMade : Nat
  sleepSeconds : Nat
deriving DecidableEq

/-- The error message recorded for a failed attempt (the f-string on the
`except` branch, which interpolates the raw exception). -/
def attemptErrorMessage (role_id : Nat) (role_name : String) (attempt : Nat)
    (exceptionText : String) : String :=
  "Failed to export role " ++ toString role_id ++ " (" ++ role_name ++
    ") on attempt " ++ toString (attempt + 1) ++ ": " ++ exceptionText

/-- The output filename built on a successful attempt:
`sanitize_filename(role_name or "role_<id>", "role_<id>") + "_<id>.txt"`. -/
def outputFilename (role_id : Nat) (role_name : String) : String :=
  sanitize_filename (pyOrString role_name ("role_" ++ toString role_id))
      ("role_" ++ toString role_id) ++
    "_" ++ toString role_id ++ ".txt"

/-- The retry loop of `export_one_role_v2`: `remaining` counts the loop
iterations left out of `max_retries + 1`, `attempt` is the current index,
`lastErr` the last recorded error message, `slept` the seconds slept. -/
def exportGo (f : Nat → AttemptOutcome) (role_id : Nat) (role_name : String)
    (max_retries : Nat) :
    Nat → Nat → String → Nat → WorkerRun
  | 0, attempt, lastErr, slept =>
      { result := { success := false, filenameOrMessage := lastErr, fileData := none }
        attemptsMade := attempt
        sleepSeconds := slept }
  | remaining + 1, attempt, _lastErr, slept =>
    match f attempt with
    | .download bytes =>
        { result :=
            { success := true
              filenameOrMessage := outputFilename role_id role_name
              fileData := some bytes }
          attemptsMade := attempt + 1
          sleepSeconds := slept }
    | .failure e =>
        exportGo f role_id role_name max_retries remaining (attempt + 1)
          (attemptErrorMessage role_id role_name attempt e)
          (slept + if attempt < max_retries then 3 else 0)

/-- `export_one_role_v2`: run up to `max_retries + 1` attempts, sleeping 3
seconds after a failed attempt when attempts remain. -/
def export_one_role_v2 (f : Nat → AttemptOutcome) (role_id : Nat)
    (role_name : String) (max_retries : Nat) : WorkerRun :=
  exportGo f role_id role_name max_retries (max_retries + 1) 0
    "No attempts were made." 0

/-! ## Batch orchestrator loop

The worker is abstracted as a function from `(role_id, role_name)` to its
`ExportResult`; the zip archive is the ordered list of `writestr` calls
and the log the ordered list of appended entries. -/

/-- One row of `export_log`. -/
structure LogEntry where
  roleId : Nat
  roleName : String
  status : String
  details : String
deriving DecidableEq

/-- Orchestrator state: archive entries, log, and the two counters. -/
structure BatchState where
  zipEntries : List (String × List Nat)
  exportLog : List LogEntry
  successCount : Nat
  failureCount : Nat
deriving DecidableEq

/-- Python truthiness of `file_data`: present and non-empty. -/
def bytesTruthy : Option (List Nat) → Bool
  | none => false
  | some [] => false
  | some (_ :: _) => true

def initialBatchState : BatchState :=
  { zipEntries := [], exportLog := [], successCount := 0, failureCount := 0 }

/-- One iteration of the orchestrator loop: invoke the worker, then the
`if success and file_data` branch. -/
def processRole (worker : Nat → String → ExportResult) (s : BatchState)
    (role : Nat × String) : BatchState :=
  let r := worker role.1 role.2
  if r.success && bytesTruthy r.fileData then
    { s with
        successCount := s.successCount + 1
        zipEntries := s.zipEntries ++ [(r.filenameOrMessage, r.fileData.getD [])]
        exportLog := s.exportLog ++
          [{ roleId := role.1, roleName := role.2, status := "Success"
             details := r.filenameOrMessage }] }
  else
    { s with
        failureCount := s.failureCount + 1
        exportLog := s.exportLog ++
          [{ roleId := role.1, roleName := role.2, status := "Failed"
             details := r.filenameOrMessage }] }

/-- The whole orchestrator loop over the selected role list. -/
def runBatch (worker : Nat → String → ExportResult)
    (roles : List (Nat × String)) : BatchState :=
  roles.foldl (processRole worker) initialBatchState

/-! ## Progress/ETA computation -/

/-- `rate = index / elapsed if elapsed > 0 else 0`. -/
def compute_rate (index : Nat) (elapsed : ℚ) : ℚ :=
  if 0 < elapsed then (index : ℚ) / elapsed else 0

/-- `eta = (total_roles - index) / rate if rate > 0 else 0`. -/
def compute_eta (total_roles index : Nat) (elapsed : ℚ) : ℚ :=
  let rate := compute_rate index elapsed
  if 0 < rate then ((total_roles : ℚ) - (index : ℚ)) / rate else 0

/-- The `(RoleID, RoleName)` key of a log row. -/
def logKey (entry : LogEntry) : Nat × String :=
  (entry.roleId, entry.roleName)

/-- A two-page fetch environment whose second page's next link points back
to the first page: a pagination cycle for exercising the cycle guard. -/
def cycleFetch (url : String) : Option ScrapePage :=
  if url = "https://h/d2l/lp/security/role_list.d2l?ou=5" then
    some { roles := [(1, "RoleA")]
           nextUrl := some "https://h/d2l/lp/security/role_list.d2l?ou=5&pg=2" }
  else if url = "https://h/d2l/lp/security/role_list.d2l?ou=5&pg=2" then
    some { roles := [(2, "RoleB")]
           nextUrl := some "https://h/d2l/lp/security/role_list.d2l?ou=5" }
  else none

/-! ## Specification relation for run-collapsing replacement -/

/-- `RunCollapse l t`: `t` is `l` with every maximal non-empty run of
characters outside the whitelist replaced by a single `'_'` (whitelisted
characters are kept as they are). -/
inductive RunCollapse : List Char → List Char → Prop
  | nil : RunCollapse [] []
  | keep {c : Char} {s t : List Char} :
      allowedFileChar c = true → RunCollapse s t → RunCollapse (c :: s) (c :: t)
  | repl {run s t : List Char} :
      run ≠ [] → (∀ c ∈ run, allowedFileChar c = false) →
      (∀ c s2, s = c :: s2 → allowedFileChar c = true) →
      RunCollapse s t → RunCollapse (run ++ s) ('_' :: t)

end RoleExporter

namespace RoleExporter

example : sanitize_filename "Teaching Assistant!" "x" = "Teaching Assistant_" := by decide
example : sanitize_filename "" "role_5" = "role_5" := by decide
example : sanitize_filename "a!!b" "x" = "a_b" := by decide
example : normalize_url "https://h//" = "https://h" := by decide
example : normalize_url " https://h/ " = "https://h" := by decide

/-! ## Helper lemmas -/

/-- Whatever survives `dropWhile p` at the front does not satisfy `p`. -/
theorem head?_dropWhile_false {α : Type} (p : α → Bool) (l : List α) :
    ∀ c, (l.dropWhile p).head? = some c → p c = false := by
  induction l with
  | nil => intro c h; simp [List.dropWhile] at h
  | cons a l ih =>
    intro c h
    by_cases hp : p a
    · exact ih c (by simpa [List.dropWhile_cons, hp] using h)
    · rw [List.dropWhile_cons] at h
      simp [hp] at h
      rw [← h]
      exact Bool.eq_false_iff.mpr hp

/-! ## C2: transport errors in `check_whoami` -/

/-- C2 counterexample: on a transport error the fail message of
`check_whoami` is not generic — it interpolates the raw exception text
(here a cookie fragment), and distinct exceptions yield distinct
messages. -/
theorem check_whoami_surfaces_exception :
    (check_whoami (HttpOutcome.requestError "cookie=SECRET")).message =
        "Network error: cookie=SECRET" ∧
      (check_whoami (HttpOutcome.requestError "a")).message ≠
        (check_whoami (HttpOutcome.requestError "b")).message := by
  constructor
  · rfl
  · decide

/-- C2 amended: for every transport-level error, `check_whoami` returns
status `fail` with message `"Network error: "` followed by the raw
exception text — the exception is surfaced, not hidden. -/
theorem check_whoami_requestError (e : String) :
    check_whoami (HttpOutcome.requestError e) =
      { status := "fail", message := "Network error: " ++ e } := rfl

/-! ## C9: `normalize_url` strips all trailing slashes -/

/-- C9 counterexample: an input ending in `"//"` loses both trailing
slashes, not just one. -/
theorem normalize_url_counterexample :
    normalize_url "https://h//" = "https://h" ∧
      normalize_url "https://h//" ≠ "https://h/" := by decide

/-- C9 amended: `normalize_url` trims surrounding whitespace and strips
all trailing `'/'` characters: the result never ends in `'/'` and the
whitespace-trimmed input is the result followed by some run of slashes. -/
theorem normalize_url_strips_all_trailing_slashes (url : String) :
    (∃ k, pyStrip url.data =
        (normalize_url url).data ++ List.replicate k '/') ∧
      (normalize_url url).data.getLast? ≠ some '/' := by
  have hsplit :
      (pyStrip url.data).reverse.takeWhile (fun c => c = '/') ++
        (pyStrip url.data).reverse.dropWhile (fun c => c = '/') =
        (pyStrip url.data).reverse := List.takeWhile_append_dropWhile _ _
  constructor
  · refine ⟨((pyStrip url.data).reverse.takeWhile (fun c => c = '/')).length, ?_⟩
    have htake2 : ((pyStrip url.data).reverse.takeWhile (fun c => c = '/')).reverse =
        List.replicate
          ((pyStrip url.data).reverse.takeWhile (fun c => c = '/')).length '/' := by
      have htake : (pyStrip url.data).reverse.takeWhile (fun c => c = '/') =
          List.replicate
            ((pyStrip url.data).reverse.takeWhile (fun c => c = '/')).length '/' := by
        refine List.eq_replicate_of_mem ?_
        intro b hb
        have := List.mem_takeWhile_imp hb
        simpa using this
      conv_lhs => rw [htake]
      rw [List.reverse_replicate]
    calc pyStrip url.data
        = (pyStrip url.data).reverse.reverse := by rw [List.reverse_reverse]
      _ = ((pyStrip url.data).reverse.takeWhile (fun c => c = '/') ++
            (pyStrip url.data).reverse.dropWhile (fun c => c = '/')).reverse := by
            rw [hsplit]
      _ = ((pyStrip url.data).reverse.dropWhile (fun c => c = '/')).reverse ++
            ((pyStrip url.data).reverse.takeWhile (fun c => c = '/')).reverse := by
            rw [List.reverse_append]
      _ = (normalize_url url).data ++
            List.replicate
              ((pyStrip url.data).reverse.takeWhile (fun c => c = '/')).length '/' := by
            rw [htake2]; rfl
  · intro hlast
    have hh :
        ((pyStrip url.data).reverse.dropWhile (fun c => c = '/')).head? = some '/' := by
      have hdata : (normalize_url url).data =
          ((pyStrip url.data).reverse.dropWhile (fun c => c = '/')).reverse := rfl
      rw [hdata] at hlast
      rw [← List.head?_reverse, List.reverse_reverse] at hlast
      exact hlast
    have := head?_dropWhile_false (fun c => c = '/') _ _ hh
    simp at this

/-! ## C8: ETA computation is guarded and non-negative -/

/-- C8: with `completed ≤ total` and `0 ≤ elapsed`, the guarded ETA is
non-negative (the division-by-zero guards make it total), and it is `0`
whenever no time has elapsed or nothing has completed yet. -/
theorem compute_eta_nonneg (total_roles index : Nat) (elapsed : ℚ)
    (hle : index ≤ total_roles) (_helapsed : 0 ≤ elapsed) :
    0 ≤ compute_eta total_roles index elapsed ∧
      (elapsed = 0 → compute_eta total_roles index elapsed = 0) ∧
      (index = 0 → compute_eta total_roles index elapsed = 0) := by
  refine ⟨?_, ?_, ?_⟩
  · rw [compute_eta]
    by_cases hrate : 0 < compute_rate index elapsed
    · rw [if_pos hrate]
      refine div_nonneg ?_ (le_of_lt hrate)
      have : (index : ℚ) ≤ (total_roles : ℚ) := by exact_mod_cast hle
      linarith
    · rw [if_neg hrate]
  · intro h0
    rw [compute_eta, compute_rate, h0]
    norm_num
  · intro h0
    rw [compute_eta, compute_rate, h0]
    by_cases he : 0 < elapsed
    · simp [he]
    · simp [he]

/-- C8 witness at `total = 10`, `completed = 3`, `elapsed = 2`. -/
theorem compute_eta_nonneg_witness : 0 ≤ compute_eta 10 3 2 :=
  (compute_eta_nonneg 10 3 2 (by norm_num) (by norm_num)).1

/-! ## C10: successful export with empty bytes is logged as Failed -/

/-- C10: when the worker reports success but the file bytes are empty,
the orchestrator loop body appends a `Failed` log entry whose detail is
the output filename, leaves the archive untouched, and bumps only the
failure counter. -/
theorem processRole_empty_bytes (worker : Nat → String → ExportResult)
    (s : BatchState) (role_id : Nat) (role_name fn : String)
    (h : worker role_id role_name =
      { success := true, filenameOrMessage := fn, fileData := some [] }) :
    processRole worker s (role_id, role_name) =
      { s with
          failureCount := s.failureCount + 1
          exportLog := s.exportLog ++
            [{ roleId := role_id, roleName := role_name, status := "Failed"
               details := fn }] } := by
  rw [processRole]
  simp only [h, bytesTruthy]
  rfl

/-- C10 witness: a concrete worker returning success with empty bytes. -/
theorem processRole_empty_bytes_witness :
    processRole (fun _ _ =>
        { success := true, filenameOrMessage := "Admin_7.txt", fileData := some [] })
      initialBatchState (7, "Admin") =
      { initialBatchState with
          failureCount := 1
          exportLog :=
            [{ roleId := 7, roleName := "Admin", status := "Failed"
               details := "Admin_7.txt" }] } :=
  processRole_empty_bytes
    (fun _ _ =>
      { success := true, filenameOrMessage := "Admin_7.txt", fileData := some [] })
    initialBatchState 7 "Admin" "Admin_7.txt" rfl

/-! ## C6: `sanitize_filename` collapses runs and keeps spaces -/

/-- C6 counterexample: the regex whitelists the space character and its
`+` quantifier collapses a run of bad characters into a single `'_'`, so
the spec's example value and its per-character reading both fail. -/
theorem sanitize_filename_counterexample :
    sanitize_filename "Teaching Assistant!" "x" = "Teaching Assistant_" ∧
      "Teaching Assistant_" ≠ "Teaching_Assistant_" ∧
      sanitize_filename "a!!b" "x" = "a_b" ∧ "a_b" ≠ "a__b" := by decide

/-- With the in-run flag set, the state machine first skips the rest of
the current bad run. -/
theorem collapseBadAux_true_eq (l : List Char) :
    collapseBadAux true l =
      collapseBadAux false (l.dropWhile (fun c => !allowedFileChar c)) := by
  induction l with
  | nil => rfl
  | cons c rest ih =>
    by_cases h : allowedFileChar c
    · simp [collapseBadAux, List.dropWhile_cons, h]
    · simpa [collapseBadAux, List.dropWhile_cons, h] using ih

/-- The state machine realises the run-collapsing relation. -/
theorem runCollapse_collapseBadAux_le :
    ∀ (n : Nat) (l : List Char), l.length ≤ n →
      RunCollapse l (collapseBadAux false l) := by
  intro n
  induction n with
  | zero =>
    intro l hl
    have : l = [] := List.eq_nil_of_length_eq_zero (Nat.le_zero.mp hl)
    subst this
    exact RunCollapse.nil
  | succ n ih =>
    intro l hl
    match l with
    | [] => exact RunCollapse.nil
    | c :: rest =>
      by_cases h : allowedFileChar c
      · have hstep : collapseBadAux false (c :: rest) = c :: collapseBadAux false rest := by
          simp [collapseBadAux, h]
        rw [hstep]
        refine RunCollapse.keep h (ih rest ?_)
        simpa using Nat.succ_le_succ_iff.mp hl
      · have hstep : collapseBadAux false (c :: rest) =
            '_' :: collapseBadAux false (rest.dropWhile (fun d => !allowedFileChar d)) := by
          simp [collapseBadAux, h, collapseBadAux_true_eq]
        rw [hstep]
        have hdecomp : c :: rest =
            (c :: rest.takeWhile (fun d => !allowedFileChar d)) ++
              rest.dropWhile (fun d => !allowedFileChar d) := by
          rw [List.cons_append, List.takeWhile_append_dropWhile]
        rw [hdecomp]
        refine RunCollapse.repl (by simp) ?_ ?_ (ih _ ?_)
        · intro x hx
          rcases List.mem_cons.mp hx with hx | hx
          · subst hx
            exact Bool.eq_false_iff.mpr h
          · have := List.mem_takeWhile_imp hx
            simpa using this
        · intro x s2 hxs
          have hhead : ((rest.dropWhile (fun d => !allowedFileChar d)).head?) = some x := by
            rw [hxs]; rfl
          have := head?_dropWhile_false (fun d => !allowedFileChar d) rest x hhead
          simpa using this
        · have h1 : (rest.dropWhile (fun d => !allowedFileChar d)).length ≤ rest.length :=
            (List.dropWhile_sublist (l := rest) _).length_le
          have h2 : rest.length ≤ n := Nat.succ_le_succ_iff.mp (by simpa using hl)
          exact le_trans h1 h2

/-- C6 amended: `sanitize_filename` trims surrounding whitespace and
replaces every maximal run of characters outside `[A-Za-z0-9_. -]` with a
single `'_'` (the space character is whitelisted and kept), falling back
to `default` when the replaced string is empty; in particular
`sanitize_filename "Teaching Assistant!" "x" = "Teaching Assistant_"` and
`sanitize_filename "" "role_5" = "role_5"`. -/
theorem sanitize_filename_collapses_runs (name default : String) :
    RunCollapse (pyStrip name.data) (collapseBadAux false (pyStrip name.data)) ∧
      (String.mk (collapseBadAux false (pyStrip name.data)) = "" →
        sanitize_filename name default = default) ∧
      (String.mk (collapseBadAux false (pyStrip name.data)) ≠ "" →
        sanitize_filename name default =
          String.mk (collapseBadAux false (pyStrip name.data))) ∧
      sanitize_filename "Teaching Assistant!" "x" = "Teaching Assistant_" ∧
      sanitize_filename "" "role_5" = "role_5" := by
  refine ⟨runCollapse_collapseBadAux_le (pyStrip name.data).length _ le_rfl, ?_, ?_, by decide, by decide⟩
  · intro h0
    rw [sanitize_filename, h0]
    rfl
  · intro h0
    rw [sanitize_filename]
    simp [h0]

/-- C6 witness: the amended theorem applied at `"a!!b"`, whose sanitized
form is non-empty. -/
theorem sanitize_filename_collapses_runs_witness :
    sanitize_filename "a!!b" "x" =
      String.mk (collapseBadAux false (pyStrip "a!!b".data)) :=
  (sanitize_filename_collapses_runs "a!!b" "x").2.2.1 (by decide)

/-! ## C4 and C5: the export worker's retry loop -/

/-- The worker never makes more attempts than iterations remain. -/
theorem exportGo_attemptsMade_le (f : Nat → AttemptOutcome) (rid : Nat)
    (rname : String) (mr : Nat) :
    ∀ remaining attempt lastErr slept,
      (exportGo f rid rname mr remaining attempt lastErr slept).attemptsMade ≤
        attempt + remaining := by
  intro remaining
  induction remaining with
  | zero => intro attempt lastErr slept; simp [exportGo]
  | succ k ih =>
    intro attempt lastErr slept
    cases hf : f attempt with
    | download bytes =>
      simp only [exportGo, hf]
      omega
    | failure e =>
      simp only [exportGo, hf]
      exact le_trans (ih (attempt + 1) _ _) (by omega)

/-- Retry scenario: attempts up to the current one fail, attempt `mr`
succeeds — the loop returns success after exactly the remaining failures
plus the final download, sleeping 3 seconds per failed attempt. -/
theorem exportGo_retry_eq (f : Nat → AttemptOutcome) (e : Nat → String)
    (rid : Nat) (rname : String) (mr : Nat) (bytes : List Nat)
    (hfail : ∀ i, i < mr → f i = AttemptOutcome.failure (e i))
    (hsucc : f mr = AttemptOutcome.download bytes) :
    ∀ remaining attempt lastErr slept,
      attempt + remaining = mr + 1 → attempt ≤ mr →
      exportGo f rid rname mr remaining attempt lastErr slept =
        { result :=
            { success := true
              filenameOrMessage := outputFilename rid rname
              fileData := some bytes }
          attemptsMade := mr + 1
          sleepSeconds := slept + 3 * (mr - attempt) } := by
  intro remaining
  induction remaining with
  | zero =>
    intro attempt lastErr slept h1 h2
    exact absurd h1 (by omega)
  | succ k ih =>
    intro attempt lastErr slept h1 h2
    by_cases ha : attempt = mr
    · subst ha
      simp only [exportGo, hsucc]
      have hz : attempt - attempt = 0 := Nat.sub_self attempt
      rw [hz]
      simp
    · have halt : attempt < mr := lt_of_le_of_ne h2 ha
      simp only [exportGo, hfail attempt halt, if_pos halt]
      rw [ih (attempt + 1) _ _ (by omega) (by omega)]
      have harith : slept + 3 + 3 * (mr - (attempt + 1)) = slept + 3 * (mr - attempt) := by
        omega
      rw [harith]

/-- C5: the worker makes at most `max_retries + 1` attempts with a
3-second pause after each failed attempt, and when the first
`max_retries` attempts fail and the final attempt downloads, the result
is success with the output filename and the downloaded bytes after
exactly `max_retries + 1` attempts. -/
theorem export_one_role_v2_retry (max_retries : Nat) (_hmr : max_retries ≤ 5)
    (f : Nat → AttemptOutcome) (e : Nat → String) (role_id : Nat)
    (role_name : String) (bytes : List Nat)
    (hfail : ∀ i, i < max_retries → f i = AttemptOutcome.failure (e i))
    (hsucc : f max_retries = AttemptOutcome.download bytes) :
    (∀ g : Nat → AttemptOutcome,
        (export_one_role_v2 g role_id role_name max_retries).attemptsMade ≤
          max_retries + 1) ∧
      export_one_role_v2 f role_id role_name max_retries =
        { result :=
            { success := true
              filenameOrMessage := outputFilename role_id role_name
              fileData := some bytes }
          attemptsMade := max_retries + 1
          sleepSeconds := 3 * max_retries } := by
  constructor
  · intro g
    have := exportGo_attemptsMade_le g role_id role_name max_retries
      (max_retries + 1) 0 "No attempts were made." 0
    simpa [export_one_role_v2] using this
  · have := exportGo_retry_eq f e role_id role_name max_retries bytes hfail hsucc
      (max_retries + 1) 0 "No attempts were made." 0 (by omega) (by omega)
    simpa [export_one_role_v2] using this

/-- C5 witness: retries = 2, two failures then a download. -/
theorem export_one_role_v2_retry_witness :
    export_one_role_v2
        (fun i => if i < 2 then AttemptOutcome.failure "boom"
          else AttemptOutcome.download [1, 2, 3]) 7 "Admin" 2 =
      { result :=
          { success := true
            filenameOrMessage := outputFilename 7 "Admin"
            fileData := some [1, 2, 3] }
        attemptsMade := 2 + 1
        sleepSeconds := 3 * 2 } :=
  (export_one_role_v2_retry 2 (by decide)
      (fun i => if i < 2 then AttemptOutcome.failure "boom"
        else AttemptOutcome.download [1, 2, 3])
      (fun _ => "boom") 7 "Admin" [1, 2, 3] (by decide) rfl).2

/-- All-failures scenario for the worker loop: the returned message is the
message recorded on the last attempt. -/
theorem exportGo_allFail (f : Nat → AttemptOutcome) (e : Nat → String)
    (rid : Nat) (rname : String) (mr : Nat) :
    ∀ remaining attempt lastErr slept,
      attempt + remaining = mr + 1 →
      (∀ i, attempt ≤ i → i ≤ mr → f i = AttemptOutcome.failure (e i)) →
      (remaining = 0 → lastErr = attemptErrorMessage rid rname mr (e mr)) →
      (exportGo f rid rname mr remaining attempt lastErr slept).result =
        { success := false
          filenameOrMessage := attemptErrorMessage rid rname mr (e mr)
          fileData := none } := by
  intro remaining
  induction remaining with
  | zero =>
    intro attempt lastErr slept _ _ h3
    simp only [exportGo]
    rw [h3 rfl]
  | succ k ih =>
    intro attempt lastErr slept h1 h2 _
    have ha : attempt ≤ mr := by omega
    simp only [exportGo, h2 attempt le_rfl ha]
    refine ih (attempt + 1) _ _ (by omega) (fun i hi1 hi2 => h2 i (by omega) hi2) ?_
    intro hk0
    have hmr : attempt = mr := by omega
    rw [hmr]

/-- C4 amended: when every attempt fails, the failure outcome's message is
the last attempt's recorded message
`"Failed to export role <id> (<name>) on attempt <n>: <exception>"` — it
embeds the raw exception text of the last error, not only a
category/summary. -/
theorem export_one_role_v2_all_attempts_fail (max_retries : Nat)
    (f : Nat → AttemptOutcome) (e : Nat → String) (role_id : Nat)
    (role_name : String)
    (hfail : ∀ i, i ≤ max_retries → f i = AttemptOutcome.failure (e i)) :
    (export_one_role_v2 f role_id role_name max_retries).result =
      { success := false
        filenameOrMessage :=
          attemptErrorMessage role_id role_name max_retries (e max_retries)
        fileData := none } :=
  exportGo_allFail f e role_id role_name max_retries (max_retries + 1) 0
    "No attempts were made." 0 (by omega) (fun i _ h2 => hfail i h2)
    (fun h => absurd h (Nat.succ_ne_zero _))

/-- C4 witness: one retry, both attempts fail. -/
theorem export_one_role_v2_all_attempts_fail_witness :
    (export_one_role_v2 (fun _ => AttemptOutcome.failure "boom") 7 "Admin" 1).result =
      { success := false
        filenameOrMessage := attemptErrorMessage 7 "Admin" 1 "boom"
        fileData := none } :=
  export_one_role_v2_all_attempts_fail 1 (fun _ => AttemptOutcome.failure "boom")
    (fun _ => "boom") 7 "Admin" (fun _ _ => rfl)

/-- C4 counterexample: with a single failing attempt the returned message
interpolates the raw exception text (here a cookie fragment), and
different exception payloads give different messages. -/
theorem export_failure_surfaces_exception :
    (export_one_role_v2 (fun _ => AttemptOutcome.failure "cookie=SECRET")
          7 "Admin" 0).result =
        { success := false
          filenameOrMessage :=
            "Failed to export role 7 (Admin) on attempt 1: cookie=SECRET"
          fileData := none } ∧
      (export_one_role_v2 (fun _ => AttemptOutcome.failure "a")
          7 "Admin" 0).result.filenameOrMessage ≠
        (export_one_role_v2 (fun _ => AttemptOutcome.failure "b")
          7 "Admin" 0).result.filenameOrMessage := by
  constructor
  · rfl
  · decide

/-! ## C7: the discovery scrape loop is bounded and cycle-guarded -/

/-- Each loop iteration performs at most one page fetch. -/
theorem scrapeGo_fetches_le (fetch : String → Option ScrapePage) :
    ∀ fuel currentUrl seenUrls roles fetches,
      (scrapeGo fetch fuel currentUrl seenUrls roles fetches).2 ≤ fetches + fuel := by
  intro fuel
  induction fuel with
  | zero => intro c s r f; simp [scrapeGo]
  | succ k ih =>
    intro currentUrl seen roles fetches
    cases currentUrl with
    | none => simp [scrapeGo]
    | some url =>
      simp only [scrapeGo]
      split
      · omega
      · split
        · omega
        · exact le_trans (ih _ _ _ _) (by omega)

/-- C7: for every fetch environment the scrape performs at most 50 page
fetches, and on a concrete two-page cycle it stops at the already-visited
URL after 2 fetches, returning the roles collected up to that point. -/
theorem fetch_roles_via_ui_scrape_bounded :
    (∀ (fetch : String → Option ScrapePage) (host_url : String)
        (organization_unit_id : Nat),
        (fetch_roles_via_ui_scrape fetch host_url organization_unit_id).2 ≤ 50) ∧
      fetch_roles_via_ui_scrape cycleFetch "https://h" 5 =
        ([(1, "RoleA"), (2, "RoleB")], 2) := by
  constructor
  · intro fetch host_url organization_unit_id
    have := scrapeGo_fetches_le fetch 50
      (some (host_url ++ "/d2l/lp/security/role_list.d2l?ou=" ++
        toString organization_unit_id)) [] [] 0
    simpa [fetch_roles_via_ui_scrape] using this
  · decide

/-! ## C1: the orchestrator logs every role once and archives the successes -/

/-- Each orchestrator iteration appends exactly one log entry keyed by the
processed role; it extends the archive with that entry's detail filename
precisely when the entry's status is `Success`. -/
theorem processRole_step (worker : Nat → String → ExportResult)
    (s : BatchState) (role : Nat × String) :
    ∃ entry : LogEntry, logKey entry = role ∧
      (processRole worker s role).exportLog = s.exportLog ++ [entry] ∧
      ((entry.status = "Success" ∧
          (processRole worker s role).zipEntries =
            s.zipEntries ++
              [(entry.details, ((worker role.1 role.2).fileData).getD [])]) ∨
        (entry.status = "Failed" ∧
          (processRole worker s role).zipEntries = s.zipEntries)) := by
  rw [processRole]
  by_cases hc :
      ((worker role.1 role.2).success && bytesTruthy (worker role.1 role.2).fileData) = true
  · refine ⟨{ roleId := role.1, roleName := role.2, status := "Success"
              details := (worker role.1 role.2).filenameOrMessage }, ?_, ?_, ?_⟩
    · simp [logKey]
    · simp [hc]
    · left
      refine ⟨rfl, ?_⟩
      simp [hc]
  · refine ⟨{ roleId := role.1, roleName := role.2, status := "Failed"
              details := (worker role.1 role.2).filenameOrMessage }, ?_, ?_, ?_⟩
    · simp [logKey]
    · simp [hc]
    · right
      refine ⟨rfl, ?_⟩
      simp [hc]

/-- Folding the loop body appends one log row per role, in order. -/
theorem foldl_processRole_log (worker : Nat → String → ExportResult) :
    ∀ (roles : List (Nat × String)) (s : BatchState),
      (roles.foldl (processRole worker) s).exportLog.map logKey =
        s.exportLog.map logKey ++ roles := by
  intro roles
  induction roles with
  | nil => intro s; simp
  | cons r rest ih =>
    intro s
    rw [List.foldl_cons, ih]
    obtain ⟨entry, hkey, hlog, _⟩ := processRole_step worker s r
    rw [hlog]
    simp [hkey]

/-- Folding the loop body preserves the archive/log correspondence: the
archive filenames are exactly the details of the `Success` log rows. -/
theorem foldl_processRole_zip (worker : Nat → String → ExportResult) :
    ∀ (roles : List (Nat × String)) (s : BatchState),
      s.zipEntries.map Prod.fst =
        (s.exportLog.filter (fun e => e.status == "Success")).map
          (fun e => e.details) →
      (roles.foldl (processRole worker) s).zipEntries.map Prod.fst =
        ((roles.foldl (processRole worker) s).exportLog.filter
            (fun e => e.status == "Success")).map (fun e => e.details) := by
  intro roles
  induction roles with
  | nil => intro s h; simpa using h
  | cons r rest ih =>
    intro s h
    rw [List.foldl_cons]
    refine ih (processRole worker s r) ?_
    obtain ⟨entry, _, hlog, hstatus⟩ := processRole_step worker s r
    rw [hlog, List.filter_append, List.map_append]
    rcases hstatus with ⟨hs, hz⟩ | ⟨hs, hz⟩
    · rw [hz, List.map_append, h]
      simp [hs]
    · rw [hz, h]
      simp [hs]

/-- Folding the loop body keeps every log status in `{Success, Failed}`. -/
theorem foldl_processRole_status (worker : Nat → String → ExportResult) :
    ∀ (roles : List (Nat × String)) (s : BatchState),
      (∀ e ∈ s.exportLog, e.status = "Success" ∨ e.status = "Failed") →
      ∀ e ∈ (roles.foldl (processRole worker) s).exportLog,
        e.status = "Success" ∨ e.status = "Failed" := by
  intro roles
  induction roles with
  | nil => intro s h; simpa using h
  | cons r rest ih =>
    intro s h
    rw [List.foldl_cons]
    refine ih _ ?_
    obtain ⟨entry, _, hlog, hstatus⟩ := processRole_step worker s r
    rw [hlog]
    intro e he
    rcases List.mem_append.mp he with he | he
    · exact h e he
    · have : e = entry := by simpa using he
      subst this
      rcases hstatus with ⟨hs, _⟩ | ⟨hs, _⟩
      · exact Or.inl hs
      · exact Or.inr hs

/-- C1: over any role list and worker behaviour, the final log holds
exactly one row per submitted role (in order, each `Success` or `Failed`),
and the archive holds exactly one entry per `Success` row (its detail
filename) and none for `Failed` rows. -/
theorem runBatch_log_and_archive (worker : Nat → String → ExportResult)
    (roles : List (Nat × String)) :
    (runBatch worker roles).exportLog.map logKey = roles ∧
      (runBatch worker roles).zipEntries.map Prod.fst =
        ((runBatch worker roles).exportLog.filter
            (fun e => e.status == "Success")).map (fun e => e.details) ∧
      ∀ e ∈ (runBatch worker roles).exportLog,
        e.status = "Success" ∨ e.status = "Failed" := by
  refine ⟨?_, ?_, ?_⟩
  · have := foldl_processRole_log worker roles initialBatchState
    simpa [runBatch, initialBatchState] using this
  · exact foldl_processRole_zip worker roles initialBatchState (by rfl)
  · exact foldl_processRole_status worker roles initialBatchState
      (by intro e he; simp [initialBatchState] at he)

/-! ## C3: the URL-safety predicate (modelled from the spec) -/

/-- C3: `isSafeUrl` rejects every URL whose scheme is not `http`/`https`,
every URL without a parseable hostname (including unparseable URLs), and
every URL whose hostname is `localhost`, `127.0.0.1`, `::1` or `0.0.0.0`;
it accepts `https://school.example.com`. -/
theorem isSafeUrl_spec :
    (∀ url : String, urlScheme url ≠ some "http" →
        urlScheme url ≠ some "https" → isSafeUrl url = false) ∧
      (∀ url : String, urlHostname url = none → isSafeUrl url = false) ∧
      (∀ (url host : String), urlHostname url = some host →
        host ∈ blockedHosts → isSafeUrl url = false) ∧
      isSafeUrl "https://school.example.com" = true ∧
      isSafeUrl "ftp://example.com" = false ∧
      isSafeUrl "http://localhost" = false ∧
      isSafeUrl "https://127.0.0.1" = false ∧
      isSafeUrl "https://[::1]/" = false ∧
      isSafeUrl "http://0.0.0.0" = false ∧
      isSafeUrl "not a url" = false := by
  refine ⟨?_, ?_, ?_, by decide, by decide, by decide, by decide, by decide,
    by decide, by decide⟩
  · intro url h1 h2
    cases hs : urlScheme url with
    | none => simp [isSafeUrl, hs]
    | some scheme =>
      cases hh : urlHostname url with
      | none => simp [isSafeUrl, hs, hh]
      | some host =>
        have hs1 : scheme ≠ "http" := fun h => h1 (by rw [hs, h])
        have hs2 : scheme ≠ "https" := fun h => h2 (by rw [hs, h])
        simp [isSafeUrl, hs, hh, hs1, hs2]
  · intro url hh
    cases hs : urlScheme url with
    | none => simp [isSafeUrl, hs]
    | some scheme => simp [isSafeUrl, hs, hh]
  · intro url host hh hmem
    cases hs : urlScheme url with
    | none => simp [isSafeUrl, hs]
    | some scheme =>
      simp only [blockedHosts, List.mem_cons, List.not_mem_nil, or_false] at hmem
      rcases hmem with rfl | rfl | rfl | rfl <;> simp [isSafeUrl, hs, hh, blockedHosts]

/-- C3 witness: the blocklist clause applied at a URL with a port and
path, whose parsed hostname is `127.0.0.1`. -/
theorem isSafeUrl_spec_witness : isSafeUrl "http://127.0.0.1:8080/x" = false :=
  isSafeUrl_spec.2.2.1 "http://127.0.0.1:8080/x" "127.0.0.1" (by decide) (by decide)

end RoleExporter
